import Mathlib

/-!
Shallow embedding of the scoring / validation core of the Glucoin-AI
diabetes-detection service (src/api_detection.py) and of the chatbot topic
gate (src/api_chatbot.py, src/diabetes_chatbot/web_search.py).

Python floats are modelled as rationals (ℚ); every numeric literal that
appears in the source is exactly representable (0.25, 0.5, 0.75, 0.8, 0.85,
0.3, 0.7, 0.12, 0.15, thresholds 100/130/180, ...), so the rational model
agrees with the float code on every comparison relevant to the claims.
-/

namespace Glucoin

/-! ## Questionnaire data model (Pydantic models in src/api_detection.py) -/

/-- `QuestionnaireNonDiabetes` (api_detection.py lines 209–223): questionnaire
for people not yet diagnosed with diabetes. -/
structure QuestionnaireNonDiabetes where
  penglihatan_buram : Bool
  sering_bak : Bool
  luka_lama_sembuh : Bool
  kesemutan : Bool
  obesitas : Bool
  sering_lapar : Bool
  berat_badan : ℚ
  tinggi_badan : ℚ
  riwayat_keluarga : Bool
  tekanan_darah_tinggi : Bool
  kolesterol_tinggi : Bool
  frekuensi_olahraga : ℕ
  pola_makan : ℕ

/-- The range constraints the Pydantic `Field(..., ge=..., le=...)`
declarations enforce at the service boundary for the undiagnosed variant. -/
def QuestionnaireNonDiabetes.Valid (q : QuestionnaireNonDiabetes) : Prop :=
  20 ≤ q.berat_badan ∧ q.berat_badan ≤ 300 ∧
  100 ≤ q.tinggi_badan ∧ q.tinggi_badan ≤ 250 ∧
  q.frekuensi_olahraga ≤ 3 ∧ q.pola_makan ≤ 2

/-- `QuestionnaireDiabetes` (api_detection.py lines 225–238): questionnaire
for people already diagnosed.  `hasil_hba1c` is `Optional[float]`. -/
structure QuestionnaireDiabetes where
  peningkatan_bak : Bool
  kesemutan : Bool
  perubahan_berat : ℕ
  gula_darah_puasa : ℚ
  rutin_hba1c : Bool
  hasil_hba1c : Option ℚ
  tekanan_darah_sistolik : ℚ
  kondisi_kolesterol : ℕ
  konsumsi_obat : Bool
  pernah_hipoglikemia : Bool
  olahraga_rutin : Bool
  pola_makan : ℕ

/-- Boundary range constraints for the diagnosed variant (the range
`ge=4, le=15` on `hasil_hba1c` is only checked when the value is supplied;
Pydantic does not force it to be present when `rutin_hba1c` is true). -/
def QuestionnaireDiabetes.Valid (q : QuestionnaireDiabetes) : Prop :=
  q.perubahan_berat ≤ 3 ∧
  50 ≤ q.gula_darah_puasa ∧ q.gula_darah_puasa ≤ 500 ∧
  (∀ v, q.hasil_hba1c = some v → 4 ≤ v ∧ v ≤ 15) ∧
  80 ≤ q.tekanan_darah_sistolik ∧ q.tekanan_darah_sistolik ≤ 250 ∧
  q.kondisi_kolesterol ≤ 2 ∧ q.pola_makan ≤ 2

/-! ## Risk banding and scorers (api_detection.py lines 266–381) -/

/-- `get_risk_level` (lines 266–275). -/
def get_risk_level (score : ℚ) : String :=
  if 3/4 ≤ score then "tinggi"
  else if 1/2 ≤ score then "sedang"
  else if 1/4 ≤ score then "rendah"
  else "tidak"

/-- The running total accumulated by `calculate_non_diabetic_score`
(lines 279–319) before normalisation: the same contributions, added in the
same order as the Python `score += ...` statements. -/
def nonDiabeticRaw (q : QuestionnaireNonDiabetes) : ℚ :=
  (if q.penglihatan_buram then 1 else 0) +
  (if q.sering_bak then 1 else 0) +
  (if q.luka_lama_sembuh then 1 else 0) +
  (if q.kesemutan then 1 else 0) +
  (if q.obesitas then 1 else 0) +
  (if q.sering_lapar then 1 else 0) +
  (let bmi := q.berat_badan / ((q.tinggi_badan / 100) ^ 2)
   if 30 ≤ bmi then 3/2 else if 25 ≤ bmi then 1 else 0) +
  (if q.riwayat_keluarga then 3/2 else 0) +
  (if q.tekanan_darah_tinggi then 1 else 0) +
  (if q.kolesterol_tinggi then 1 else 0) +
  (if q.frekuensi_olahraga = 0 then 1 else if q.frekuensi_olahraga = 1 then 1/2 else 0) +
  (if q.pola_makan = 0 then 1 else if q.pola_makan = 1 then 1/2 else 0)

/-- `calculate_non_diabetic_score` (lines 277–321): `min(score / max_score, 1.0)`
with `max_score = 12`. -/
def calculate_non_diabetic_score (q : QuestionnaireNonDiabetes) : ℚ :=
  min (nonDiabeticRaw q / 12) 1

/-- Fasting-glucose contribution inside `calculate_diabetic_score`
(lines 339–345): an `if/elif/elif` chain, so exactly one branch fires. -/
def glucoseContribution (g : ℚ) : ℚ :=
  if 180 ≤ g then 2
  else if 130 ≤ g then 3/2
  else if 100 ≤ g then 1
  else 0

/-- HbA1c contribution inside `calculate_diabetic_score` (lines 347–354).
The Python condition `if q.rutin_hba1c and q.hasil_hba1c:` tests the
truthiness of the `Optional[float]`: `None` and `0.0` are falsy, any other
value truthy; the `elif not q.rutin_hba1c:` arm adds the flat 0.5 penalty. -/
def hba1cContribution (rutin : Bool) (hasil : Option ℚ) : ℚ :=
  match hasil with
  | some v =>
      if rutin ∧ v ≠ 0 then
        (if 9 ≤ v then 2 else if 7 ≤ v then 1 else 0)
      else if ¬rutin then 1/2 else 0
  | none => if ¬rutin then 1/2 else 0

/-- The running total accumulated by `calculate_diabetic_score`
(lines 325–379) before normalisation, contributions in source order. -/
def diabeticRaw (q : QuestionnaireDiabetes) : ℚ :=
  (if q.peningkatan_bak then 1 else 0) +
  (if q.kesemutan then 1 else 0) +
  (if 2 ≤ q.perubahan_berat then 3/2 else if q.perubahan_berat = 1 then 1/2 else 0) +
  glucoseContribution q.gula_darah_puasa +
  hba1cContribution q.rutin_hba1c q.hasil_hba1c +
  (if 140 ≤ q.tekanan_darah_sistolik then 1
   else if 130 ≤ q.tekanan_darah_sistolik then 1/2 else 0) +
  (if q.kondisi_kolesterol = 2 then 1 else if q.kondisi_kolesterol = 1 then 1/2 else 0) +
  (if ¬q.konsumsi_obat then 1/2 else 0) +
  (if q.pernah_hipoglikemia then 1 else 0) +
  (if ¬q.olahraga_rutin then 1 else 0) +
  (if q.pola_makan = 0 then 1 else if q.pola_makan = 1 then 1/2 else 0)

/-- `calculate_diabetic_score` (lines 323–381): `min(score / max_score, 1.0)`
with `max_score = 12`. -/
def calculate_diabetic_score (q : QuestionnaireDiabetes) : ℚ :=
  min (diabeticRaw q / 12) 1

/-- Score combination in `detect_combined` (api_detection.py lines 620–626):
`0.70 * image_score + 0.30 * q_score` when an image score is supplied,
otherwise the questionnaire score alone. -/
def combineFinalScore (q_score : ℚ) (image_score : Option ℚ) : ℚ :=
  match image_score with
  | some i => 7/10 * i + 3/10 * q_score
  | none => q_score

/-! ## Shared helper lemmas about the scorers -/

lemma glucoseContribution_nonneg (g : ℚ) : 0 ≤ glucoseContribution g := by
  unfold glucoseContribution
  split_ifs <;> norm_num

lemma hba1cContribution_nonneg (r : Bool) (h : Option ℚ) :
    0 ≤ hba1cContribution r h := by
  unfold hba1cContribution
  cases h <;> dsimp only <;> split_ifs <;> norm_num

lemma nonDiabeticRaw_nonneg (q : QuestionnaireNonDiabetes) :
    0 ≤ nonDiabeticRaw q := by
  unfold nonDiabeticRaw
  repeat' apply add_nonneg
  all_goals (dsimp only; split_ifs <;> norm_num)

lemma diabeticRaw_nonneg (q : QuestionnaireDiabetes) : 0 ≤ diabeticRaw q := by
  unfold diabeticRaw
  repeat' apply add_nonneg
  all_goals first
    | (dsimp only; split_ifs <;> norm_num)
    | exact glucoseContribution_nonneg _
    | exact hba1cContribution_nonneg _ _

lemma minDiv12_mono {a b : ℚ} (h : a ≤ b) : min (a / 12) 1 ≤ min (b / 12) 1 :=
  min_le_min (by linarith) le_rfl

/-- Example undiagnosed-variant answer set (used to instantiate theorems). -/
def qNonDiabEx : QuestionnaireNonDiabetes :=
  ⟨false, false, false, false, false, false, 70, 170, false, false, false, 2, 2⟩

/-- Example diagnosed-variant answer set with `rutin_hba1c = true` but no
HbA1c value supplied. -/
def qDiabEx : QuestionnaireDiabetes :=
  ⟨false, false, 0, 90, true, none, 120, 0, true, false, true, 2⟩

/-! ## Image validation (`validate_tongue_nail_image`, api_detection.py 72–172)

An image is a list of RGB pixels with rational channel values.  `np.mean` and
`np.std` (population std, `ddof=0`) are modelled by `channelMean` and the
variance `channelVar`; since `np.std X > t` with `t ≥ 0` holds iff
`variance X > t²`, the validator's std comparisons are carried out on
variances against squared thresholds, which is exact. -/

def channelMean (xs : List ℚ) : ℚ := xs.sum / (xs.length : ℚ)

def channelVar (xs : List ℚ) : ℚ :=
  ((xs.map fun x => (x - channelMean xs) ^ 2).sum) / (xs.length : ℚ)

structure ColorStats where
  r_mean : ℚ
  g_mean : ℚ
  b_mean : ℚ
  r_var : ℚ
  g_var : ℚ
  b_var : ℚ

def imageStats (pixels : List (ℚ × ℚ × ℚ)) : ColorStats :=
  ⟨channelMean (pixels.map fun p => p.1),
   channelMean (pixels.map fun p => p.2.1),
   channelMean (pixels.map fun p => p.2.2),
   channelVar (pixels.map fun p => p.1),
   channelVar (pixels.map fun p => p.2.1),
   channelVar (pixels.map fun p => p.2.2)⟩

/-- `colorsys.rgb_to_hsv`, transcribed from the CPython standard library:
when `min = max` it returns hue 0 and saturation 0; `h % 1.0` is `Int.fract`. -/
def rgb_to_hsv (r g b : ℚ) : ℚ × ℚ × ℚ :=
  let maxc := max r (max g b)
  let minc := min r (min g b)
  let rangec := maxc - minc
  let v := maxc
  if minc = maxc then (0, 0, v)
  else
    let s := rangec / maxc
    let rc := (maxc - r) / rangec
    let gc := (maxc - g) / rangec
    let bc := (maxc - b) / rangec
    let h := if r = maxc then bc - gc
             else if g = maxc then 2 + rc - bc
             else 4 + gc - rc
    (Int.fract (h / 6), s, v)

/-- One `if cond: confidence += 0.25 else: reasons.append(msg)` step. -/
def checkStep (c : Prop) [Decidable c] (reason : String) : ℚ × List String :=
  if c then (1/4, []) else (0, [reason])

/-- The four threshold checks (api_detection.py 105–159): contribution to the
confidence and appended reason of each, accumulated in source order.  The
source's `else` branch treats every `image_type ≠ "tongue"` as nail. -/
def validate_checks (image_type : String) (st : ColorStats) (hsv : ℚ × ℚ × ℚ) :
    ℚ × List String :=
  let h := hsv.1
  let s := hsv.2.1
  let v := hsv.2.2
  if image_type = "tongue" then
    let c1 := checkStep (st.r_mean > st.g_mean ∧ st.r_mean > st.b_mean * (8/10))
      "warna tidak sesuai karakteristik lidah"
    let c2 := checkStep (h ≤ 12/100 ∨ 85/100 ≤ h) "tone warna bukan merah/pink"
    let c3 := checkStep (15/100 ≤ s ∧ s ≤ 85/100) "saturasi tidak normal"
    let c4 := checkStep (st.r_var > 15 ^ 2 ∧ st.g_var > 10 ^ 2) "tekstur tidak terdeteksi"
    (c1.1 + c2.1 + c3.1 + c4.1, c1.2 ++ c2.2 ++ c3.2 ++ c4.2)
  else
    let c1 := checkStep (3/10 ≤ v) "gambar terlalu gelap untuk kuku"
    let c2 := checkStep (st.g_mean * (85/100) ≤ st.r_mean) "warna tidak sesuai skin tone"
    let c3 := checkStep (s ≤ 7/10) "warna terlalu jenuh untuk kuku"
    let c4 := checkStep (st.r_var > 10 ^ 2 ∨ st.g_var > 10 ^ 2) "tekstur tidak terdeteksi"
    (c1.1 + c2.1 + c3.1 + c4.1, c1.2 ++ c2.2 ++ c3.2 ++ c4.2)

/-- Confidence and reasons from raw pixels: statistics, then HSV of the mean
colour scaled to `[0,1]` (api_detection.py line 100), then the checks. -/
def checksResult (pixels : List (ℚ × ℚ × ℚ)) (image_type : String) : ℚ × List String :=
  let st := imageStats pixels
  validate_checks image_type st (rgb_to_hsv (st.r_mean / 255) (st.g_mean / 255) (st.b_mean / 255))

/-- The success message (line 165): `confidence*100` is a multiple of 25 for
every reachable confidence, so `:.0f` prints exactly its integer value. -/
def validMessage (image_type : String) (confidence : ℚ) : String :=
  "Gambar " ++ image_type ++ " terdeteksi valid (confidence: " ++
    toString (confidence * 100).num ++ "%)"

/-- The body of the `try` block (api_detection.py 79–169). -/
def validate_tongue_nail_core (pixels : List (ℚ × ℚ × ℚ)) (image_type : String) :
    Bool × String × ℚ :=
  let cr := checksResult pixels image_type
  let confidence := cr.1
  let reasons := cr.2
  let is_valid := decide ((1/2 : ℚ) ≤ confidence)
  let message :=
    if is_valid then validMessage image_type confidence
    else "Gambar tidak terdeteksi sebagai " ++ image_type ++ ". " ++
      String.intercalate ", " reasons
  (is_valid, message, confidence)

/-- A decoded upload: either pixel data, or an image whose decoding /
statistics raise an exception (e.g. a truncated file whose lazy PIL load
fails inside `np.array(img.convert('RGB'))`). -/
inductive DecodedImage where
  | ok (pixels : List (ℚ × ℚ × ℚ))
  | corrupt (err : String)

/-- `validate_tongue_nail_image` (lines 72–172): the `except` clause turns any
exception into `(False, f"Error validasi gambar: {e}", 0.0)`, so the function
always returns a triple and never propagates the exception. -/
def validate_tongue_nail_image (img : DecodedImage) (image_type : String) :
    Bool × String × ℚ :=
  match img with
  | .ok pixels => validate_tongue_nail_core pixels image_type
  | .corrupt e => (false, "Error validasi gambar: " ++ e, 0)

/-- A pure mid-gray image: every pixel `(128,128,128)`. -/
def grayImage : List (ℚ × ℚ × ℚ) := List.replicate 4 (128, 128, 128)

/-- A uniform pink image: passes tongue checks 1–3, fails only the texture
check (zero variance). -/
def pinkImage : List (ℚ × ℚ × ℚ) := List.replicate 4 (200, 100, 100)

/-- A two-pixel pink image with enough per-channel variance to pass all four
tongue checks. -/
def texturedPink : List (ℚ × ℚ × ℚ) := [(200, 100, 100), (150, 60, 60)]

/-! ## Chatbot topic gate (src/api_chatbot.py 110–164) and search trigger
(src/diabetes_chatbot/web_search.py 267–295)

Python's substring operator `needle in hay` and `str.lower()` are modelled on
character lists (all strings involved are ASCII, where `Char.toLower` agrees
with `str.lower`). -/

/-- `needle in hay` for Python strings. -/
def listContains (hay needle : List Char) : Bool :=
  hay.tails.any fun s => needle.isPrefixOf s

def pyLower (s : String) : List Char := s.data.map Char.toLower

/-- `DIABETES_KEYWORDS` (api_chatbot.py 110–132), in source order. -/
def DIABETES_KEYWORDS : List String :=
  ["diabetes", "diabetesi", "gula darah", "glukosa", "insulin", "hiperglikemia",
   "hipoglikemia", "kencing manis", "prediabetes", "resistensi insulin",
   "hba1c", "a1c", "gdp", "gds", "ttgo", "ogtt",
   "metformin", "glibenklamid", "glimepirid", "sulfonilurea",
   "retinopati", "neuropati", "nefropati", "kaki diabetik",
   "pankreas", "sel beta", "hormon",
   "obesitas", "kegemukan", "berat badan", "diet", "karbohidrat",
   "kalori", "indeks glikemik", "serat", "nutrisi",
   "komplikasi", "amputasi", "luka", "kesemutan", "baal",
   "sering kencing", "haus", "lapar", "lelah", "lemas",
   "mata kabur", "penglihatan", "ginjal", "jantung", "stroke",
   "kolesterol", "trigliserida", "tekanan darah", "hipertensi",
   "olahraga", "aktivitas fisik", "gaya hidup", "sehat",
   "puasa", "makan", "makanan", "minuman", "buah", "sayur",
   "gula", "manis", "pemanis", "stevia", "sukrosa",
   "cek gula", "tes darah", "monitor", "glucometer",
   "pompa insulin", "suntik", "injeksi", "pen insulin",
   "blood sugar", "glucose", "glycemic", "carbohydrate", "carbs",
   "type 1", "type 2", "gestational", "mellitus", "blood test",
   "endokrin", "metabolik", "metabolisme", "sindrom metabolik",
   "lidah", "kuku", "deteksi", "screening", "skrining"]

/-- The whitespace class matched by `\s` in Python's `re` on ASCII text. -/
def isPySpace (c : Char) : Bool :=
  c = ' ' || c = '\t' || c = '\n' || c = '\x0d' || c = '\x0b' || c = '\x0c'

/-- `re.search` for the gate's patterns, each of the form
`word1 \s* alternative`.  No alternative starts with a whitespace character,
so consuming the maximal run of whitespace after `word1` is equivalent to the
regex engine's behaviour. -/
def matchTwoPart (hay w1 : List Char) (alts : List (List Char)) : Bool :=
  hay.tails.any fun s =>
    w1.isPrefixOf s &&
    alts.any fun w2 => w2.isPrefixOf ((s.drop w1.length).dropWhile isPySpace)

/-- The `patterns` list inside `is_diabetes_related` (api_chatbot.py 154–158):
`r"gula\s*darah"`, ..., `r"type\s*[12]"`, `r"tipe\s*[12]"`. -/
def TOPIC_PATTERNS : List (List Char × List (List Char)) :=
  [("gula".data, ["darah".data]),
   ("kadar".data, ["gula".data]),
   ("cek".data, ["gula".data]),
   ("tes".data, ["gula".data]),
   ("kencing".data, ["manis".data]),
   ("sakit".data, ["gula".data]),
   ("penyakit".data, ["gula".data]),
   ("blood".data, ["sugar".data]),
   ("type".data, ["1".data, "2".data]),
   ("tipe".data, ["1".data, "2".data])]

/-- `is_diabetes_related` (api_chatbot.py 146–164): keyword substring pass
over the lower-cased message, then the regex pass. -/
def is_diabetes_related (message : String) : Bool :=
  let message_lower := pyLower message
  DIABETES_KEYWORDS.any (fun k => listContains message_lower k.data) ||
  TOPIC_PATTERNS.any (fun p => matchTwoPart message_lower p.1 p.2)

/-- `self.search_triggers` of `DiabetesSearchAgent`
(web_search.py 274–280). -/
def SEARCH_TRIGGERS : List String :=
  ["terbaru", "berita", "penelitian", "studi",
   "obat baru", "terapi baru", "update",
   "statistik", "data", "prevalensi",
   "rekomendasi", "guideline", "panduan terbaru",
   "perkembangan", "inovasi", "teknologi"]

/-- `DiabetesSearchAgent.should_search` (web_search.py 282–295): trigger
keywords, then the interrogative words `kapan/dimana/siapa/berapa`. -/
def should_search (query : String) : Bool :=
  let query_lower := pyLower query
  SEARCH_TRIGGERS.any (fun t => listContains query_lower t.data) ||
  (["kapan", "dimana", "siapa", "berapa"] : List String).any
    (fun w => listContains query_lower w.data)

/-! ## Helper lemmas about the image statistics -/

lemma channelMean_replicate {n : ℕ} (hn : 0 < n) (x : ℚ) :
    channelMean (List.replicate n x) = x := by
  have hne : (n : ℚ) ≠ 0 := Nat.cast_ne_zero.mpr hn.ne'
  unfold channelMean
  rw [List.sum_replicate, List.length_replicate, nsmul_eq_mul,
    mul_comm, mul_div_assoc, div_self hne, mul_one]

lemma channelVar_replicate {n : ℕ} (hn : 0 < n) (x : ℚ) :
    channelVar (List.replicate n x) = 0 := by
  unfold channelVar
  rw [channelMean_replicate hn, List.map_replicate]
  simp

lemma imageStats_replicate {n : ℕ} (hn : 0 < n) (r g b : ℚ) :
    imageStats (List.replicate n (r, g, b)) = ⟨r, g, b, 0, 0, 0⟩ := by
  unfold imageStats
  simp [List.map_replicate, channelMean_replicate hn, channelVar_replicate hn]

/-- `colorsys.rgb_to_hsv` on an achromatic colour takes the `minc == maxc`
early return: hue and saturation are 0. -/
lemma rgb_to_hsv_gray (x : ℚ) : rgb_to_hsv x x x = (0, 0, x) := by
  unfold rgb_to_hsv
  simp

/-! ## Claim theorems -/

/-- C1: for every valid undiagnosed-variant input the score of
`calculate_non_diabetic_score` lies in [0,1], and flipping any single one of
the nine boolean flags from false to true (all other fields fixed) never
decreases the score. -/
theorem non_diabetic_score_monotone (q : QuestionnaireNonDiabetes)
    (_hv : q.Valid) :
    (0 ≤ calculate_non_diabetic_score q ∧ calculate_non_diabetic_score q ≤ 1) ∧
    calculate_non_diabetic_score {q with penglihatan_buram := false} ≤
      calculate_non_diabetic_score {q with penglihatan_buram := true} ∧
    calculate_non_diabetic_score {q with sering_bak := false} ≤
      calculate_non_diabetic_score {q with sering_bak := true} ∧
    calculate_non_diabetic_score {q with luka_lama_sembuh := false} ≤
      calculate_non_diabetic_score {q with luka_lama_sembuh := true} ∧
    calculate_non_diabetic_score {q with kesemutan := false} ≤
      calculate_non_diabetic_score {q with kesemutan := true} ∧
    calculate_non_diabetic_score {q with obesitas := false} ≤
      calculate_non_diabetic_score {q with obesitas := true} ∧
    calculate_non_diabetic_score {q with sering_lapar := false} ≤
      calculate_non_diabetic_score {q with sering_lapar := true} ∧
    calculate_non_diabetic_score {q with riwayat_keluarga := false} ≤
      calculate_non_diabetic_score {q with riwayat_keluarga := true} ∧
    calculate_non_diabetic_score {q with tekanan_darah_tinggi := false} ≤
      calculate_non_diabetic_score {q with tekanan_darah_tinggi := true} ∧
    calculate_non_diabetic_score {q with kolesterol_tinggi := false} ≤
      calculate_non_diabetic_score {q with kolesterol_tinggi := true} := by
  refine ⟨⟨le_min (div_nonneg (nonDiabeticRaw_nonneg q) (by norm_num))
      zero_le_one, min_le_right _ _⟩, ?_, ?_, ?_, ?_, ?_, ?_, ?_, ?_, ?_⟩
  all_goals
    unfold calculate_non_diabetic_score
    apply minDiv12_mono
    unfold nonDiabeticRaw
    dsimp only
    gcongr
    norm_num

/-- Witness for C1 at a concrete valid questionnaire. -/
theorem non_diabetic_score_monotone_witness :
    0 ≤ calculate_non_diabetic_score qNonDiabEx :=
  (non_diabetic_score_monotone qNonDiabEx
    (by norm_num [QuestionnaireNonDiabetes.Valid, qNonDiabEx])).1.1

/-- C2: in `calculate_diabetic_score` the fasting-glucose contribution is
exactly one band of the `if/elif` chain — +2 for glucose ≥ 180, +1.5 for
130 ≤ glucose < 180, +1 for 100 ≤ glucose < 130, +0 below 100 — and in
particular glucose 185 contributes exactly +2, never a sum of bands.
(`glucoseContribution` is, definitionally, the glucose summand of
`diabeticRaw`, the raw sum of `calculate_diabetic_score`.) -/
theorem glucose_band_exclusive (g : ℚ) :
    (180 ≤ g → glucoseContribution g = 2) ∧
    (130 ≤ g → g < 180 → glucoseContribution g = 3/2) ∧
    (100 ≤ g → g < 130 → glucoseContribution g = 1) ∧
    (g < 100 → glucoseContribution g = 0) ∧
    glucoseContribution 185 = 2 := by
  unfold glucoseContribution
  refine ⟨?_, ?_, ?_, ?_, by norm_num⟩ <;>
    intros <;> split_ifs <;> first | rfl | linarith

/-- Witness for C2 at the concrete input glucose = 185. -/
theorem glucose_band_exclusive_witness : glucoseContribution 185 = 2 :=
  (glucose_band_exclusive 185).1 (by norm_num)

/-- C3: in `calculate_diabetic_score`, `rutin_hba1c = false` contributes a
flat +0.5 regardless of the supplied HbA1c value (present or absent); with
`rutin_hba1c = true` and a value `v ∈ [4,15]` present, the contribution is
+2 for v ≥ 9, +1 for 7 ≤ v < 9 and +0 below 7. -/
theorem hba1c_band (hasil : Option ℚ) (v : ℚ) :
    hba1cContribution false hasil = 1/2 ∧
    (4 ≤ v → v ≤ 15 →
      (9 ≤ v → hba1cContribution true (some v) = 2) ∧
      (7 ≤ v → v < 9 → hba1cContribution true (some v) = 1) ∧
      (v < 7 → hba1cContribution true (some v) = 0)) := by
  constructor
  · cases hasil <;> simp [hba1cContribution]
  · intro h4 _
    have hv : v ≠ 0 := by intro h; rw [h] at h4; norm_num at h4
    refine ⟨?_, ?_, ?_⟩
    · intro h9
      simp only [hba1cContribution]
      rw [if_pos ⟨trivial, hv⟩, if_pos h9]
    · intro h7 h9
      simp only [hba1cContribution]
      rw [if_pos ⟨trivial, hv⟩, if_neg (by linarith), if_pos h7]
    · intro h7
      simp only [hba1cContribution]
      rw [if_pos ⟨trivial, hv⟩, if_neg (by linarith), if_neg (by linarith)]

/-- Witness for C3 at `hasil = some 10`, `v = 10`. -/
theorem hba1c_band_witness : hba1cContribution true (some 10) = 2 :=
  ((hba1c_band (some 10) 10).2 (by norm_num) (by norm_num)).1 (by norm_num)

/-- C10: with `rutin_hba1c = true` but `hasil_hba1c` absent (`None`), the
Python truthiness test `q.rutin_hba1c and q.hasil_hba1c` fails and the
`elif not q.rutin_hba1c` penalty also does not apply, so the HbA1c term
contributes exactly 0; the scorer still returns a normal score in [0,1]
instead of rejecting the input. -/
theorem hba1c_missing_contributes_zero (q : QuestionnaireDiabetes)
    (hr : q.rutin_hba1c = true) (hh : q.hasil_hba1c = none) :
    hba1cContribution q.rutin_hba1c q.hasil_hba1c = 0 ∧
    0 ≤ calculate_diabetic_score q ∧ calculate_diabetic_score q ≤ 1 := by
  refine ⟨?_, ?_, ?_⟩
  · rw [hr, hh]; simp [hba1cContribution]
  · exact le_min (div_nonneg (diabeticRaw_nonneg q) (by norm_num)) zero_le_one
  · exact min_le_right _ _

/-- Witness for C10 at `qDiabEx` (whose flag is true, value absent). -/
theorem hba1c_missing_contributes_zero_witness :
    hba1cContribution qDiabEx.rutin_hba1c qDiabEx.hasil_hba1c = 0 :=
  (hba1c_missing_contributes_zero qDiabEx rfl rfl).1

/-- C4: `get_risk_level` maps a score to exactly one of the four bands, with
lower-closed cut points — "tinggi" iff score ≥ 0.75, "sedang" iff
0.50 ≤ score < 0.75, "rendah" iff 0.25 ≤ score < 0.50, "tidak" iff
score < 0.25 — so 0.75 → "tinggi", 0.749999 → "sedang", 0.50 → "sedang",
0.25 → "rendah", 0 → "tidak".  (This single function is the one applied to
undiagnosed, diagnosed and combined scores alike in the endpoints.) -/
theorem risk_level_bands (score : ℚ) :
    (get_risk_level score = "tinggi" ↔ 3/4 ≤ score) ∧
    (get_risk_level score = "sedang" ↔ 1/2 ≤ score ∧ score < 3/4) ∧
    (get_risk_level score = "rendah" ↔ 1/4 ≤ score ∧ score < 1/2) ∧
    (get_risk_level score = "tidak" ↔ score < 1/4) ∧
    get_risk_level (3/4) = "tinggi" ∧
    get_risk_level (749999/1000000) = "sedang" ∧
    get_risk_level (1/2) = "sedang" ∧
    get_risk_level (1/4) = "rendah" ∧
    get_risk_level 0 = "tidak" := by
  unfold get_risk_level
  refine ⟨?_, ?_, ?_, ?_, by norm_num, by norm_num, by norm_num, by norm_num,
    by norm_num⟩ <;>
    split_ifs <;> simp_all <;>
      first
        | linarith
        | (intro h; linarith)

/-- C5: the combined-score computation of `detect_combined` returns
`0.70·image_score + 0.30·questionnaire_score` when an image score is present
and the questionnaire score unchanged when absent; for image 0.9 and
questionnaire 0.2 the result is exactly 0.69, in the "sedang" band. -/
theorem combine_weights (q i : ℚ)
    (_hq0 : 0 ≤ q) (_hq1 : q ≤ 1) (_hi0 : 0 ≤ i) (_hi1 : i ≤ 1) :
    combineFinalScore q (some i) = 7/10 * i + 3/10 * q ∧
    combineFinalScore q none = q ∧
    combineFinalScore (2/10) (some (9/10)) = 69/100 ∧
    get_risk_level (combineFinalScore (2/10) (some (9/10))) = "sedang" := by
  refine ⟨rfl, rfl, by norm_num [combineFinalScore], ?_⟩
  norm_num [combineFinalScore, get_risk_level]

/-- Witness for C5 at questionnaire score 0.2, image score 0.9. -/
theorem combine_weights_witness :
    combineFinalScore (2/10) (some (9/10)) = 69/100 :=
  (combine_weights (2/10) (9/10) (by norm_num) (by norm_num) (by norm_num)
    (by norm_num)).2.2.1

/-- C6 counterexample: the concrete pure mid-gray image (all pixels
(128,128,128)) gets confidence 0.25, not 0 — the hue check passes because
`colorsys.rgb_to_hsv` reports hue 0 for achromatic colours, and 0 ≤ 0.12. -/
theorem gray_image_not_zero_confidence :
    (validate_tongue_nail_image (.ok grayImage) "tongue").2.2 = 1/4 ∧
    (validate_tongue_nail_image (.ok grayImage) "tongue").2.2 ≠ 0 := by
  have hcr : checksResult grayImage "tongue" =
      (1/4, ["warna tidak sesuai karakteristik lidah", "saturasi tidak normal",
        "tekstur tidak terdeteksi"]) := by
    unfold grayImage checksResult
    rw [imageStats_replicate (by norm_num : 0 < 4)]
    dsimp only
    rw [rgb_to_hsv_gray]
    unfold validate_checks checkStep
    norm_num
  unfold validate_tongue_nail_image validate_tongue_nail_core
  dsimp only
  rw [hcr]
  norm_num

/-- C6 (amended): every uniform gray image (each pixel `(g,g,g)`, any size
≥ 1) claimed as tongue gets confidence exactly 0.25 — checks 1, 3 and 4
fail, the hue check passes — and the image is rejected. -/
theorem gray_tongue_image_rejected (g : ℚ) (n : ℕ) (hn : 0 < n)
    (_h0 : 0 ≤ g) (_h255 : g ≤ 255) :
    (validate_tongue_nail_image (.ok (List.replicate n (g, g, g))) "tongue").1
      = false ∧
    (validate_tongue_nail_image (.ok (List.replicate n (g, g, g))) "tongue").2.2
      = 1/4 ∧
    (checksResult (List.replicate n (g, g, g)) "tongue").2 =
      ["warna tidak sesuai karakteristik lidah", "saturasi tidak normal",
       "tekstur tidak terdeteksi"] := by
  have hcr : checksResult (List.replicate n (g, g, g)) "tongue" =
      (1/4, ["warna tidak sesuai karakteristik lidah", "saturasi tidak normal",
        "tekstur tidak terdeteksi"]) := by
    unfold checksResult
    rw [imageStats_replicate hn]
    dsimp only
    rw [rgb_to_hsv_gray]
    unfold validate_checks checkStep
    norm_num
  refine ⟨?_, ?_, by rw [hcr]⟩ <;>
    · unfold validate_tongue_nail_image validate_tongue_nail_core
      dsimp only
      rw [hcr]
      try norm_num

/-- Witness for the amended C6 at gray level 128 and four pixels. -/
theorem gray_tongue_image_rejected_witness :
    (validate_tongue_nail_image
      (.ok (List.replicate 4 ((128 : ℚ), 128, 128))) "tongue").2.2 = 1/4 :=
  (gray_tongue_image_rejected 128 4 (by norm_num) (by norm_num)
    (by norm_num)).2.1

/-- C7 counterexample: the uniform pink image passes tongue checks 1–3 and
fails only the texture check, so it is accepted (confidence 0.75) while its
reasons list is non-empty — "reasons empty iff accepted" is false. -/
theorem accepted_with_nonempty_reasons :
    (validate_tongue_nail_image (.ok pinkImage) "tongue").1 = true ∧
    (checksResult pinkImage "tongue").2 ≠ [] := by
  have hcr : checksResult pinkImage "tongue" =
      (3/4, ["tekstur tidak terdeteksi"]) := by
    unfold pinkImage checksResult
    rw [imageStats_replicate (by norm_num : 0 < 4)]
    dsimp only
    unfold rgb_to_hsv validate_checks checkStep
    norm_num [max_def, min_def, Int.fract_zero]
  unfold validate_tongue_nail_image validate_tongue_nail_core
  dsimp only
  rw [hcr]
  norm_num

/-- C7 (amended): each failed check appends exactly one reason, so the
confidence is `1 - |reasons|/4`; the image is accepted iff at most two of the
four checks fail (|reasons| ≤ 2); an empty reasons list therefore implies
acceptance, but an accepted image may carry one or two reasons. -/
theorem reasons_count_vs_accepted (pixels : List (ℚ × ℚ × ℚ)) (t : String) :
    (checksResult pixels t).1 =
      1 - ((checksResult pixels t).2.length : ℚ) / 4 ∧
    ((validate_tongue_nail_image (.ok pixels) t).1 = true ↔
      (checksResult pixels t).2.length ≤ 2) ∧
    ((checksResult pixels t).2 = [] →
      (validate_tongue_nail_image (.ok pixels) t).1 = true) := by
  unfold validate_tongue_nail_image validate_tongue_nail_core checksResult
    validate_checks checkStep
  by_cases ht : t = "tongue" <;>
    simp only [ht, if_true, if_false, reduceIte] <;>
    split_ifs <;>
    norm_num [decide_eq_true_iff]
  all_goals simp

/-- Witness for the amended C7 at a concrete image passing all four checks. -/
theorem reasons_count_vs_accepted_witness :
    (validate_tongue_nail_image (.ok texturedPink) "tongue").1 = true :=
  (reasons_count_vs_accepted texturedPink "tongue").2.2 (by
    have hcr : checksResult texturedPink "tongue" = (1, []) := by
      unfold texturedPink checksResult imageStats channelVar channelMean
        rgb_to_hsv validate_checks checkStep
      norm_num [max_def, min_def, Int.fract_zero]
    rw [hcr])

/-- C8: the `except` clause of `validate_tongue_nail_image` turns any
exception raised while decoding pixels or computing statistics into the
normal return value `(False, "Error validasi gambar: <e>", 0.0)`; the
function is total and never propagates the exception. -/
theorem validation_exception_caught (e image_type : String) :
    validate_tongue_nail_image (.corrupt e) image_type =
      (false, "Error validasi gambar: " ++ e, 0) := rfl

/-- C9 counterexample: the topic gate `is_diabetes_related` returns false on
"kapan vaksin covid?" — "kapan" is not among its keywords or regex patterns
(it is a trigger of the separate web-search heuristic only). -/
theorem topic_gate_kapan_false :
    is_diabetes_related "kapan vaksin covid?" = false := by decide

/-- C9 (amended): the topic gate answers true / false / false on the three
messages; the interrogative trigger "kapan" belongs to
`DiabetesSearchAgent.should_search`, which does return true on
"kapan vaksin covid?". -/
theorem topic_gate_examples :
    is_diabetes_related "Apa kadar gula darah normal?" = true ∧
    is_diabetes_related "Bagaimana cuaca hari ini?" = false ∧
    is_diabetes_related "kapan vaksin covid?" = false ∧
    should_search "kapan vaksin covid?" = true := by
  refine ⟨?_, ?_, ?_, ?_⟩ <;> decide

end Glucoin
